import Mathlib

/-!
Verification development for the github-okr-fetcher repository.

Shallow embedding conventions:
* Go strings are modeled as Lean `String` (a list of Unicode code points).
  `strings.Contains` works on bytes, but UTF-8 is self-synchronizing, so byte
  substring containment of valid strings coincides with code-point substring
  containment, which is what `goContains` implements.
* `strings.ToLower` is modeled per character for ASCII letters and for the
  Latin-1/Latin-Extended uppercase letters that occur in this code base
  (the source files store their emoji as mojibake, see below); Go agrees with
  this mapping on every character occurring in the needles and witnesses used
  here.
* The non-ASCII needles of the two status detectors are written with explicit
  code points because the Go sources contain them in corrupted form: the
  UTF-8 bytes of each emoji were decoded as a legacy 8-bit code page and
  re-encoded, so e.g. the check-mark emoji U+2705 appears in the sources as
  the three characters U+00E2 U+0153 U+2026.
* Go `int` values holding issue numbers and counters are modeled as `Nat`
  (all sources of these values are digit runs or non-negative counters).
-/

set_option maxRecDepth 4000

namespace OKRFetcher

/-- Character class of RE2 white space `\s = [\t\n\f\r ]`, also used to model
`strings.ToLower`-insensitive spacing in the parent-reference regexes. -/
def goSpace (c : Char) : Bool :=
  c = ' ' || c = '\t' || c = '\n' || c = Char.ofNat 12 || c = '\r'

/-- Per-character lowercasing agreeing with Go's `unicode.ToLower` on ASCII,
on the Latin-1 uppercase range, and on the four Latin-Extended uppercase
letters produced by the mojibake in this repository (U+0152, U+0160, U+0178,
U+017D, U+011E). Characters outside these ranges are left unchanged. -/
def lowerChar (c : Char) : Char :=
  if 'A' ≤ c ∧ c ≤ 'Z' then Char.ofNat (c.toNat + 32)
  else if Char.ofNat 0xC0 ≤ c ∧ c ≤ Char.ofNat 0xDE ∧ c ≠ Char.ofNat 0xD7 then
    Char.ofNat (c.toNat + 32)
  else if c = Char.ofNat 0x152 then Char.ofNat 0x153
  else if c = Char.ofNat 0x160 then Char.ofNat 0x161
  else if c = Char.ofNat 0x178 then Char.ofNat 0xFF
  else if c = Char.ofNat 0x17D then Char.ofNat 0x17E
  else if c = Char.ofNat 0x11E then Char.ofNat 0x11F
  else c

/-- Model of Go `strings.ToLower` (see `lowerChar` for the covered ranges). -/
def goToLower (s : String) : String :=
  String.mk (s.data.map lowerChar)

/-- True when the first list is an initial run of the second. -/
def leadsWith : List Char → List Char → Bool
  | [], _ => true
  | _ :: _, [] => false
  | a :: as, b :: bs => a == b && leadsWith as bs

/-- Substring search over code points; `hasSub needle hay` scans `hay` left to
right for an occurrence of `needle`. -/
def hasSub (needle : List Char) : List Char → Bool
  | [] => needle.isEmpty
  | c :: t => leadsWith needle (c :: t) || hasSub needle t

/-- Model of Go `strings.Contains s sub`. -/
def goContains (s sub : String) : Bool :=
  hasSub sub.data s.data

/-- Status constants of `internal/domain/entity/issue.go`. -/
inductive WeeklyUpdateStatus where
  | onTrack
  | caution
  | delayed
  | atRisk
  | blocked
  | completed
  | unknown
deriving DecidableEq

/-! The emoji literals of the two status detectors, exactly as stored in the
sources. `internal/adapters/github/repository.go` holds the bytes of each
emoji decoded as Windows-1254 (so byte F0 became U+011F), while
`internal/domain/service/okr.go` holds them decoded as Windows-1252 (byte F0
became U+00F0). -/

/-- Source literal of the red-circle emoji in repository.go (corrupted). -/
def adRedCircle : String :=
  String.mk [Char.ofNat 0x11F, Char.ofNat 0x178, Char.ofNat 0x201D, Char.ofNat 0xB4]

/-- Source literal of the no-entry emoji in repository.go (corrupted). -/
def adNoEntry : String :=
  String.mk [Char.ofNat 0x11F, Char.ofNat 0x178, Char.ofNat 0x161, Char.ofNat 0xAB]

/-- Source literal of the yellow-circle emoji in repository.go (corrupted). -/
def adYellowCircle : String :=
  String.mk [Char.ofNat 0x11F, Char.ofNat 0x178, Char.ofNat 0x178, Char.ofNat 0xA1]

/-- Source literal of the warning-sign emoji, identical in both files
(corrupted). -/
def warnSign : String :=
  String.mk [Char.ofNat 0xE2, Char.ofNat 0x161, Char.ofNat 0xA0, Char.ofNat 0xEF, Char.ofNat 0xB8]

/-- Source literal of the green-circle emoji in repository.go (corrupted). -/
def adGreenCircle : String :=
  String.mk [Char.ofNat 0x11F, Char.ofNat 0x178, Char.ofNat 0x178, Char.ofNat 0xA2]

/-- Source literal of the check-mark emoji, identical in both files
(corrupted form of U+2705). -/
def mojiCheckMark : String :=
  String.mk [Char.ofNat 0xE2, Char.ofNat 0x153, Char.ofNat 0x2026]

/-- Source literal of the plain check mark in okr.go (corrupted U+2713). -/
def svcCheckV : String :=
  String.mk [Char.ofNat 0xE2, Char.ofNat 0x153, Char.ofNat 0x201C]

/-- Source literal of the no-entry emoji in okr.go (corrupted). -/
def svcNoEntry : String :=
  String.mk [Char.ofNat 0xF0, Char.ofNat 0x178, Char.ofNat 0x161, Char.ofNat 0xAB]

/-- Source literal of the cross-mark emoji in okr.go (corrupted). -/
def svcCrossMark : String :=
  String.mk [Char.ofNat 0xE2, Char.ofNat 0x152]

/-- Source literal of the yellow-circle emoji in okr.go (corrupted). -/
def svcYellowCircle : String :=
  String.mk [Char.ofNat 0xF0, Char.ofNat 0x178, Char.ofNat 0x178, Char.ofNat 0xA1]

/-- Source literal of the green-circle emoji in okr.go (corrupted). -/
def svcGreenCircle : String :=
  String.mk [Char.ofNat 0xF0, Char.ofNat 0x178, Char.ofNat 0x178, Char.ofNat 0xA2]

/-- The actual check-mark emoji U+2705, as it appears in real GitHub comments
(this code point occurs nowhere in either detector's needles). -/
def checkGlyph : String :=
  String.mk [Char.ofNat 0x2705]

/-! Adapter-side detector, `detectStatusFromContent` of
`internal/adapters/github/repository.go` lines 178-220. Each branch condition
is named after the comment above it in the source; conditions take the raw
content and lower it themselves, which is equivalent to the source's single
`contentLower` binding. -/

/-- Completion indicators (repository.go line 182). -/
def adCompletedCond (content : String) : Bool :=
  goContains (goToLower content) "completed" || goContains (goToLower content) "done" ||
    goContains (goToLower content) "finished"

/-- Blocked indicators (repository.go lines 187-189). -/
def adBlockedCond (content : String) : Bool :=
  goContains content adRedCircle || goContains content adNoEntry ||
    goContains (goToLower content) "red" || goContains (goToLower content) "blocked" ||
    goContains (goToLower content) "stuck" || goContains (goToLower content) "cannot"

/-- Delayed indicators (repository.go lines 194-195). -/
def adDelayedCond (content : String) : Bool :=
  (goContains content adRedCircle &&
      (goContains (goToLower content) "delay" || goContains (goToLower content) "behind")) ||
    goContains (goToLower content) "delayed"

/-- Caution indicators (repository.go lines 200-202). -/
def adCautionCond (content : String) : Bool :=
  goContains content adYellowCircle || goContains content warnSign ||
    goContains (goToLower content) "yellow" || goContains (goToLower content) "caution" ||
    goContains (goToLower content) "warning"

/-- At-risk indicators (repository.go lines 207-208). -/
def adAtRiskCond (content : String) : Bool :=
  goContains (goToLower content) "at risk" || goContains (goToLower content) "at-risk" ||
    goContains (goToLower content) "risk"

/-- On-track indicators (repository.go lines 213-215); note that the
(corrupted) check mark sits in this branch, not in the completion branch. -/
def adOnTrackCond (content : String) : Bool :=
  goContains content adGreenCircle || goContains content mojiCheckMark ||
    goContains (goToLower content) "green" || goContains (goToLower content) "on track" ||
    goContains (goToLower content) "on-track" || goContains (goToLower content) "progress"

/-- `detectStatusFromContent` of repository.go: fixed-priority first match. -/
def adapterDetectStatusFromContent (content : String) : WeeklyUpdateStatus :=
  if adCompletedCond content then .completed
  else if adBlockedCond content then .blocked
  else if adDelayedCond content then .delayed
  else if adCautionCond content then .caution
  else if adAtRiskCond content then .atRisk
  else if adOnTrackCond content then .onTrack
  else .unknown

/-! Service-side detector, `DetectStatusFromContent` of
`internal/domain/service/okr.go` lines 244-287. There every check, including
the emoji ones, runs against the lowered content. -/

/-- Completion indicators (okr.go lines 248-252). -/
def svcCompletedCond (content : String) : Bool :=
  goContains (goToLower content) "completed" || goContains (goToLower content) "done" ||
    goContains (goToLower content) "finished" || goContains (goToLower content) mojiCheckMark ||
    goContains (goToLower content) svcCheckV

/-- Blocked indicators (okr.go lines 257-262). -/
def svcBlockedCond (content : String) : Bool :=
  goContains (goToLower content) "blocked" || goContains (goToLower content) "stuck" ||
    goContains (goToLower content) "issue" || goContains (goToLower content) "problem" ||
    goContains (goToLower content) svcNoEntry || goContains (goToLower content) svcCrossMark

/-- At-risk indicators (okr.go lines 267-272). -/
def svcAtRiskCond (content : String) : Bool :=
  goContains (goToLower content) "behind" || goContains (goToLower content) "delayed" ||
    goContains (goToLower content) "risk" || goContains (goToLower content) "concern" ||
    goContains (goToLower content) warnSign || goContains (goToLower content) svcYellowCircle

/-- On-track indicators (okr.go lines 277-281). -/
def svcOnTrackCond (content : String) : Bool :=
  goContains (goToLower content) "on track" || goContains (goToLower content) "progress" ||
    goContains (goToLower content) "good" || goContains (goToLower content) svcGreenCircle ||
    goContains (goToLower content) mojiCheckMark

/-- `DetectStatusFromContent` of okr.go; its final branch returns on-track,
not unknown. -/
def serviceDetectStatusFromContent (content : String) : WeeklyUpdateStatus :=
  if svcCompletedCond content then .completed
  else if svcBlockedCond content then .blocked
  else if svcAtRiskCond content then .atRisk
  else if svcOnTrackCond content then .onTrack
  else .onTrack

/-! Entities of `internal/domain/entity/issue.go`. -/

/-- `IssueType`: the Go type is a string; the code base only ever assigns
"objective" and "kr", and the zero value "" (never classified) is `unset`. -/
inductive IssueType where
  | objective
  | keyResult
  | unset
deriving DecidableEq

/-- `Issue` of issue.go (lines 12-20). -/
structure Issue where
  number : Nat
  title : String
  url : String
  type : IssueType
  body : String
  state : String
  labels : List String
deriving DecidableEq

/-- `WeeklyUpdate` of issue.go (lines 36-41). -/
structure WeeklyUpdate where
  date : String
  content : String
  author : String
  status : WeeklyUpdateStatus
deriving DecidableEq

/-- `IssueWithUpdates` of issue.go (lines 44-49); recursive because an
objective holds its child key results. -/
inductive IssueWithUpdates where
  | mk (issue : Issue) (latestUpdate : Option WeeklyUpdate)
      (allUpdates : List WeeklyUpdate) (childIssues : List IssueWithUpdates)

def IssueWithUpdates.issue : IssueWithUpdates → Issue
  | .mk i _ _ _ => i

def IssueWithUpdates.latestUpdate : IssueWithUpdates → Option WeeklyUpdate
  | .mk _ l _ _ => l

def IssueWithUpdates.allUpdates : IssueWithUpdates → List WeeklyUpdate
  | .mk _ _ a _ => a

def IssueWithUpdates.childIssues : IssueWithUpdates → List IssueWithUpdates
  | .mk _ _ _ c => c

/-- `Issue.IsObjective` (issue.go line 52). -/
def Issue.isObjective (i : Issue) : Bool :=
  match i.type with
  | .objective => true
  | _ => false

/-- `Issue.IsKeyResult` (issue.go line 57). -/
def Issue.isKeyResult (i : Issue) : Bool :=
  match i.type with
  | .keyResult => true
  | _ => false

/-- `GetLatestUpdateStatus` (issue.go lines 96-101). -/
def IssueWithUpdates.getLatestUpdateStatus (i : IssueWithUpdates) : WeeklyUpdateStatus :=
  match i.latestUpdate with
  | some u => u.status
  | none => .unknown

/-- `GetActualStatus` (issue.go lines 105-121): closed wins, a completed
update on an open issue is downgraded to on-track. -/
def IssueWithUpdates.getActualStatus (i : IssueWithUpdates) : WeeklyUpdateStatus :=
  let updateStatus := i.getLatestUpdateStatus
  if i.issue.state = "closed" then .completed
  else if updateStatus = .completed ∧ i.issue.state = "open" then .onTrack
  else updateStatus

/-- The loop of `GetKRStatus` over `AllUpdates` (issue.go lines 138-148):
status of the first update whose detected status is not unknown. -/
def firstMeaningfulStatus : List WeeklyUpdate → Option WeeklyUpdateStatus
  | [] => none
  | u :: rest =>
      if u.status ≠ WeeklyUpdateStatus.unknown then some u.status
      else firstMeaningfulStatus rest

/-- `GetKRStatus` (issue.go lines 125-162). -/
def IssueWithUpdates.getKRStatus (i : IssueWithUpdates) : WeeklyUpdateStatus :=
  if !i.issue.isKeyResult then i.getActualStatus
  else if i.issue.state = "closed" then .completed
  else
    match firstMeaningfulStatus i.allUpdates with
    | some st =>
        if st = WeeklyUpdateStatus.completed ∧ i.issue.state = "open" then .onTrack else st
    | none =>
        let latestStatus := i.getLatestUpdateStatus
        if latestStatus ≠ WeeklyUpdateStatus.unknown then
          if latestStatus = WeeklyUpdateStatus.completed ∧ i.issue.state = "open" then .onTrack
          else latestStatus
        else .unknown

/-- `GetObjectiveStatus` (issue.go lines 166-236): aggregates the child key
results; note the integer division in the majority test. -/
def IssueWithUpdates.getObjectiveStatus (i : IssueWithUpdates) : WeeklyUpdateStatus :=
  if !i.issue.isObjective || i.childIssues.isEmpty then i.getActualStatus
  else
    let sts := i.childIssues.map (fun kr => kr.getKRStatus)
    let completed := sts.countP (fun s => s == .completed)
    let blocked := sts.countP (fun s => s == .blocked)
    let delayed := sts.countP (fun s => s == .delayed)
    let atRisk := sts.countP (fun s => s == .atRisk)
    let caution := sts.countP (fun s => s == .caution)
    let onTrack := sts.countP (fun s => s == .onTrack)
    let totalKRs := i.childIssues.length
    if 0 < blocked then .blocked
    else if 0 < delayed then .delayed
    else if 0 < atRisk then .atRisk
    else if 0 < caution then .caution
    else if completed = totalKRs then .completed
    else if totalKRs / 2 ≤ completed then .onTrack
    else if 0 < onTrack then .onTrack
    else .unknown

/-- Modelled from the claim wording of C1 (spec section 4.4): the strict
priority resolution with the ceiling threshold, for comparison with
`getObjectiveStatus`. -/
def claimObjectiveResolve (sts : List WeeklyUpdateStatus) : WeeklyUpdateStatus :=
  if sts.any (fun s => s == .blocked) then .blocked
  else if sts.any (fun s => s == .delayed) then .delayed
  else if sts.any (fun s => s == .atRisk) then .atRisk
  else if sts.any (fun s => s == .caution) then .caution
  else if sts.all (fun s => s == .completed) then .completed
  else if (sts.length + 1) / 2 ≤ sts.countP (fun s => s == .completed) then .onTrack
  else if sts.any (fun s => s == .onTrack) then .onTrack
  else .unknown

/-- Modelled from the claim wording of C2 (spec section 4.4): closed wins,
otherwise first non-unknown entry of the whole newest-first list with the
open/completed downgrade, otherwise unknown. -/
def claimKRStatus (i : IssueWithUpdates) : WeeklyUpdateStatus :=
  if i.issue.state = "closed" then .completed
  else
    match firstMeaningfulStatus i.allUpdates with
    | some st =>
        if st = WeeklyUpdateStatus.completed ∧ i.issue.state = "open" then .onTrack else st
    | none => .unknown

/-- The amended form of C2: key results scan their whole update list, other
issues consult only the newest update. -/
def amendedKRStatus (i : IssueWithUpdates) : WeeklyUpdateStatus :=
  if i.issue.state = "closed" then .completed
  else
    match firstMeaningfulStatus
        (if i.issue.isKeyResult then i.allUpdates else i.allUpdates.take 1) with
    | some st =>
        if st = WeeklyUpdateStatus.completed ∧ i.issue.state = "open" then .onTrack else st
    | none => .unknown

/-! Parent-reference extraction, `extractParentIssueNumber` of
`internal/domain/service/okr.go` lines 306-335. The nine `(?i)` regexes are
modeled as token sequences matched against the lowered text; each regex ends
in a captured digit run. All tokens are mutually exclusive with what may
follow them (white space never overlaps a letter, an optional literal not
taken can never be re-consumed by the next token), so greedy left-to-right
matching coincides with the regex semantics. -/

inductive PatTok where
  | lit (s : List Char)
  | ws
  | opt (s : List Char)
  | seg
deriving DecidableEq

/-- Runs the token body of a pattern at the head of the text; `lit` is a
literal, `ws` models the greedy white-space run of a regex, `opt` an optional
literal, and `seg` models one URL segment (one or more characters other than
a slash, then a slash). Returns the remaining text. -/
def runToks : List PatTok → List Char → Option (List Char)
  | [], s => some s
  | .lit l :: ts, s => if leadsWith l s then runToks ts (s.drop l.length) else none
  | .ws :: ts, s => runToks ts (s.dropWhile (fun c => goSpace c))
  | .opt l :: ts, s => if leadsWith l s then runToks ts (s.drop l.length) else runToks ts s
  | .seg :: ts, s =>
      let pre := s.takeWhile (fun c => c ≠ '/')
      if pre.isEmpty then none
      else
        match s.drop pre.length with
        | '/' :: rest => runToks ts rest
        | _ => none

/-- Value of a run of decimal digits, as `strconv.Atoi` on it. -/
def digitsVal (ds : List Char) : Nat :=
  ds.foldl (fun n c => n * 10 + (c.toNat - 48)) 0

/-- The captured `(\d+)` group that ends every parent pattern: one or more
digits, taken greedily. -/
def capDigits (s : List Char) : Option Nat :=
  let ds := s.takeWhile Char.isDigit
  if ds.isEmpty then none else some (digitsVal ds)

/-- A whole parent pattern (token body then digit capture) at one position. -/
def matchCapAt (toks : List PatTok) (s : List Char) : Option Nat :=
  match runToks toks s with
  | some rest => capDigits rest
  | none => none

/-- Leftmost-match search of one pattern, as `regexp.FindStringSubmatch`. -/
def findCap (toks : List PatTok) : List Char → Option Nat
  | [] => matchCapAt toks []
  | c :: t =>
      match matchCapAt toks (c :: t) with
      | some n => some n
      | none => findCap toks t

/-- The nine body patterns of okr.go lines 311-321, in source order; all
literals are lowercase because the `(?i)` flag is modeled by lowering the
searched text. -/
def parentPatterns : List (List PatTok) :=
  [ [.lit "parent".data, .ws, .opt "issue".data, .ws, .opt ":".data, .ws, .lit "#".data],
    [.lit "parent".data, .ws, .opt "issue".data, .ws, .opt ":".data, .ws,
      .lit "https://github.com/".data, .seg, .seg, .lit "issues/".data],
    [.lit "part".data, .ws, .lit "of".data, .ws, .lit "#".data],
    [.lit "child".data, .ws, .lit "of".data, .ws, .lit "#".data],
    [.lit "subtask".data, .ws, .lit "of".data, .ws, .lit "#".data],
    [.lit "depends".data, .ws, .lit "on".data, .ws, .lit "#".data],
    [.lit "relates".data, .ws, .lit "to".data, .ws, .lit "#".data],
    [.lit "blocking".data, .ws, .lit "#".data],
    [.lit "blocked".data, .ws, .lit "by".data, .ws, .lit "#".data] ]

/-- First pattern of the list that matches anywhere in the text wins; 0 means
no parent reference (okr.go lines 323-334). -/
def firstPatternCap : List (List PatTok) → List Char → Nat
  | [], _ => 0
  | p :: ps, text =>
      match findCap p text with
      | some n => n
      | none => firstPatternCap ps text

/-- `extractParentIssueNumber` (okr.go lines 306-335): scans the
concatenation of title, a newline and body. -/
def extractParentIssueNumber (i : Issue) : Nat :=
  firstPatternCap parentPatterns (goToLower (i.title ++ "\n" ++ i.body)).data

/-- `ExtractOwnerRepoFromIssue` of repository.go lines 68-79, matching the
case-sensitive regex for an issue URL at one position; captures owner and
repo. -/
def ownerRepoAt (s : List Char) : Option (String × String) :=
  if leadsWith "https://github.com/".data s then
    let s1 := s.drop "https://github.com/".data.length
    let ow := s1.takeWhile (fun c => c ≠ '/')
    if ow.isEmpty then none
    else
      match s1.drop ow.length with
      | '/' :: s2 =>
          let rp := s2.takeWhile (fun c => c ≠ '/')
          if rp.isEmpty then none
          else
            match s2.drop rp.length with
            | '/' :: s3 =>
                if leadsWith "issues/".data s3 then
                  if ((s3.drop "issues/".data.length).takeWhile Char.isDigit).isEmpty then none
                  else some (String.mk ow, String.mk rp)
                else none
            | _ => none
      | _ => none
  else none

/-- Leftmost-match search for the issue-URL regex. -/
def findOwnerRepo : List Char → Option (String × String)
  | [] => none
  | c :: t =>
      match ownerRepoAt (c :: t) with
      | some p => some p
      | none => findOwnerRepo t

/-- `ExtractOwnerRepoFromIssue` (repository.go lines 68-79); the source's
("", "") failure value is modeled as `none`. -/
def extractOwnerRepoFromIssue (i : Issue) : Option (String × String) :=
  findOwnerRepo i.url.data

/-! The OKR service, `internal/domain/service/okr.go`. The two outbound
dependencies that the service reaches through its repository port are
abstracted into an environment: `findParent` models `FindParentIssue`
(with `none` for an error; the bridge implementation always returns 0
successfully), and `fetchComments` models `FetchIssueComments`, whose errors
the service logs and then treats exactly like an empty update list. -/

structure GitHubEnv where
  findParent : String → String → Nat → Option Nat
  fetchComments : String → String → Nat → List WeeklyUpdate

/-- The environment realized by the current bridge client:
`findParentIssueFromRelationships` always succeeds with 0, and comment
fetching is irrelevant to hierarchy claims. -/
def envNull : GitHubEnv :=
  ⟨fun _ _ _ => some 0, fun _ _ _ => []⟩

/-- `Issue.HasAllLabels` (issue.go lines 72-93): every required label occurs
among the issue's labels (exact string match). -/
def hasAllLabels (i : Issue) (requiredLabels : List String) : Bool :=
  requiredLabels.all (fun r => i.labels.any (fun l => l == r))

/-- `filterIssuesByLabels` (okr.go lines 291-304). -/
def filterIssuesByLabels (issues : List Issue) (requiredLabels : List String) : List Issue :=
  if requiredLabels.isEmpty then issues
  else issues.filter (fun i => hasAllLabels i requiredLabels)

/-- The parent number one issue resolves to inside
`BuildParentChildRelationships` (okr.go lines 174-186): the text reference,
or else the API lookup when owner and repo can be extracted. -/
def resolvedParentNum (env : GitHubEnv) (issue : Issue) : Nat :=
  let parentNum := extractParentIssueNumber issue
  if parentNum = 0 then
    match extractOwnerRepoFromIssue issue with
    | some (ow, rp) =>
        match env.findParent ow rp issue.number with
        | some apiParentNum => if 0 < apiParentNum then apiParentNum else parentNum
        | none => parentNum
    | none => parentNum
  else parentNum

/-- One iteration of the loop of `BuildParentChildRelationships` (okr.go
lines 188-190): append the issue under its parent's number. -/
def bpcrStep (env : GitHubEnv) (m : Nat → List Issue) (issue : Issue) : Nat → List Issue :=
  let p := resolvedParentNum env issue
  if 0 < p then fun k => if k = p then m k ++ [issue] else m k else m

/-- `BuildParentChildRelationships` (okr.go lines 171-194), the
parent-number-to-children map as a function. -/
def buildParentChildRelationships (env : GitHubEnv) (issues : List Issue) :
    Nat → List Issue :=
  issues.foldl (bpcrStep env) (fun _ => [])

/-! Go mutates `Issue.Type` through shared pointers; the mutations are
modeled by a store of number-to-type overrides threaded through the
computation (issue numbers are unique in a repository-scoped fetch, which is
what identifies a pointer here). -/

abbrev TypeStore := List (Nat × IssueType)

/-- Current type of an issue: the newest override for its number, or its own
field. -/
def storeGet (st : TypeStore) (i : Issue) : IssueType :=
  match st.find? (fun p => p.1 == i.number) with
  | some p => p.2
  | none => i.type

/-- Record a `issue.Type = ...` assignment. -/
def storeSet (st : TypeStore) (n : Nat) (t : IssueType) : TypeStore :=
  (n, t) :: st

/-- The value of `*issue` at snapshot time: the record with its current
type. -/
def applyStore (st : TypeStore) (i : Issue) : Issue :=
  { i with type := storeGet st i }

/-- `IdentifyObjectivesAndKeyResults` (okr.go lines 197-214): returns the
parent issues and the type assignments it performed. -/
def identifyObjectivesAndKeyResults (issues : List Issue) (pcm : Nat → List Issue) :
    List Issue × TypeStore :=
  issues.foldl
    (fun acc issue =>
      let hasChildren := !(pcm issue.number).isEmpty
      let hasParent := 0 < extractParentIssueNumber issue
      if hasChildren ∧ ¬hasParent then
        (acc.1 ++ [issue], storeSet acc.2 issue.number .objective)
      else if hasParent then (acc.1, storeSet acc.2 issue.number .keyResult)
      else acc)
    ([], [])

/-- `processObjectiveWithChildren` (okr.go lines 342-407): fails only when no
owner/repo can be read off the objective's URL; children whose URL fails are
skipped after their type was already set to key result. -/
def processObjectiveWithChildren (env : GitHubEnv) (st : TypeStore) (objective : Issue)
    (children : List Issue) : Option IssueWithUpdates × TypeStore :=
  match extractOwnerRepoFromIssue objective with
  | none => (none, st)
  | some (ow, rp) =>
      let updates := env.fetchComments ow rp objective.number
      let base := applyStore st objective
      let kidsSt := children.foldl
        (fun (acc : List IssueWithUpdates × TypeStore) child =>
          let st1 := storeSet acc.2 child.number .keyResult
          match extractOwnerRepoFromIssue child with
          | none => (acc.1, st1)
          | some (cow, crp) =>
              let cu := env.fetchComments cow crp child.number
              (acc.1 ++ [IssueWithUpdates.mk (applyStore st1 child) cu.head? cu []], st1))
        ([], st)
      (some (IssueWithUpdates.mk base updates.head? updates kidsSt.1), kidsSt.2)

/-- The loop over the parent issues at the end of `ProcessOKRIssues` (okr.go
lines 110-119): failed objectives are skipped. -/
def processParentsLoop (env : GitHubEnv) (pcm : Nat → List Issue) :
    List Issue → List IssueWithUpdates × TypeStore → List IssueWithUpdates × TypeStore
  | [], acc => acc
  | objective :: rest, acc =>
      match processObjectiveWithChildren env acc.2 objective (pcm objective.number) with
      | (some o, st) => processParentsLoop env pcm rest (acc.1 ++ [o], st)
      | (none, st) => processParentsLoop env pcm rest (acc.1, st)

/-- `ProcessOKRIssues` (okr.go lines 74-124): filter by labels, build the
parent map, classify, fall back to treating every filtered issue as an
objective when classification found none, then process each parent with the
children recorded under its number. -/
def processOKRIssues (env : GitHubEnv) (issues : List Issue)
    (requiredLabels : List String) : List IssueWithUpdates :=
  let filteredIssues := filterIssuesByLabels issues requiredLabels
  if filteredIssues.isEmpty then []
  else
    let parentChildMap := buildParentChildRelationships env filteredIssues
    let idResult := identifyObjectivesAndKeyResults filteredIssues parentChildMap
    let withFallback :=
      if idResult.1.isEmpty then
        (filteredIssues,
          filteredIssues.foldl (fun st i => storeSet st i.number IssueType.objective) idResult.2)
      else idResult
    (processParentsLoop env parentChildMap withFallback.1 ([], withFallback.2)).1

/-! Bridge client, `src/unnamed/part_001` (the GitHub bridge). Errors are
modeled as their Go message strings. -/

/-- The retryable message fragments of `isRetryableError` (bridge lines
205-215). -/
def retryableErrors : List String :=
  ["timeout", "connection reset", "connection refused", "temporary failure",
    "rate limit", "server error", "503", "502", "500"]

/-- `isRetryableError` (bridge lines 199-224) for a non-nil error: lowered
message contains one of the retryable fragments. -/
def isRetryableError (err : String) : Bool :=
  retryableErrors.any (fun r => goContains (goToLower err) r)

/-- One logical operation under retry: the result of running it on attempt
`i` (zero-based), `none` for success. -/
abbrev RetryOp := Nat → Option String

/-- The loop body of `retryWithBackoff` (bridge lines 173-196). State is the
attempt index and the running retry counter (`stats.IncrementRetry` fires at
the top of every attempt after the first); the error counter is reported in
the result: the pair holds the outcome and the final retry count, and the
sleep between attempts is irrelevant to the counters. -/
def retryLoop (maxRetries : Nat) (op : RetryOp) (i : Nat) (retries : Nat) :
    Except String Unit × Nat :=
  if _h : i < maxRetries then
    let retries := if 0 < i then retries + 1 else retries
    match op i with
    | none => (.ok (), retries)
    | some err =>
        if i = maxRetries - 1 ∨ ¬isRetryableError err then (.error err, retries)
        else retryLoop maxRetries op (i + 1) retries
  else (.error "operation failed after retries", retries)
termination_by maxRetries - i
decreasing_by omega

/-- `retryWithBackoff` (bridge lines 173-196), returning the outcome and how
often the retry counter was incremented. -/
def retryWithBackoff (maxRetries : Nat) (op : RetryOp) : Except String Unit × Nat :=
  retryLoop maxRetries op 0 0

/-- The pagination loop of `fetchIssuesBySearchQuery` (bridge lines 301-330).
The remote search is modeled as the list of pages it would serve in order;
`resp.NextPage` is 0 exactly on the last page. After appending a page the
loop stops when no next page exists, or when the accumulated count strictly
exceeds `maxIssues` (the check `len(allIssues) > maxIssues` sits after the
append). -/
def searchPagesLoop (maxIssues : Nat) : List (List Nat) → List Nat → List Nat
  | [], allIssues => allIssues
  | [page], allIssues => allIssues ++ page
  | page :: next :: rest, allIssues =>
      if maxIssues < (allIssues ++ page).length then allIssues ++ page
      else searchPagesLoop maxIssues (next :: rest) (allIssues ++ page)

/-- `fetchIssuesBySearchQuery` (bridge lines 268-354) reduced to its
pagination behavior on a successful run: the empty-query guard and the page
loop (issues are opaque and modeled by numbers; cache and stats do not
affect which issues are returned). -/
def fetchIssuesBySearchQuery (maxIssues : Nat) (searchQuery : String)
    (pages : List (List Nat)) : Except String (List Nat) :=
  if searchQuery = "" then .error "no search query specified"
  else .ok (searchPagesLoop maxIssues pages [])

/-- Size of the largest page served, bounding how far one append can carry
the accumulated issue list past the cap. -/
def biggestPage (pages : List (List Nat)) : Nat :=
  pages.foldr (fun p m => Nat.max p.length m) 0

/-! Concrete inputs used by the counterexamples and witnesses. -/

/-- A key result with no updates at all: open, so its status is unknown. -/
def krNoUpdates : IssueWithUpdates :=
  .mk ⟨7, "kr", "", .keyResult, "", "open", []⟩ none [] []

/-- An objective whose single child is `krNoUpdates` (C1's failing input). -/
def objOneUnknownChild : IssueWithUpdates :=
  .mk ⟨1, "obj", "", .objective, "", "open", []⟩ none [] [krNoUpdates]

/-- A newest update carrying no recognized status. -/
def updUnknown : WeeklyUpdate :=
  ⟨"2025-07-09", "weekly update 2025-07-09", "alice", .unknown⟩

/-- An older update recognized as blocked. -/
def updBlocked : WeeklyUpdate :=
  ⟨"2025-07-01", "weekly update 2025-07-01 blocked", "alice", .blocked⟩

/-- An open non-key-result issue whose newest update is unrecognized while an
older one says blocked (C2's counterexample input). -/
def objStaleBlocked : IssueWithUpdates :=
  .mk ⟨2, "obj", "", .objective, "", "open", []⟩ (some updUnknown) [updUnknown, updBlocked] []

/-- A closed childless objective with a caution update (C3's witness
input). -/
def objChildless : IssueWithUpdates :=
  .mk ⟨3, "obj", "", .objective, "", "open", []⟩
    (some ⟨"2025-07-09", "weekly update 2025-07-09 caution", "bob", .caution⟩)
    [⟨"2025-07-09", "weekly update 2025-07-09 caution", "bob", .caution⟩] []

/-- An open key result for the C2 witness: its newest update is unrecognized,
an older one is recognized, so the scan matters. -/
def krScan : IssueWithUpdates :=
  .mk ⟨4, "kr", "", .keyResult, "", "open", []⟩ (some updUnknown) [updUnknown, updBlocked] []

/-- An issue whose only parent reference names its own number (C6's
counterexample input). -/
def selfRefIssue : Issue :=
  ⟨5, "title", "https://github.com/own/repo/issues/5", .unset, "part of #5", "open", []⟩

/-- An issue with no parent reference and a URL the owner/repo regex cannot
parse (C7's counterexample input, first scenario). -/
def badURLIssue : Issue :=
  ⟨1, "goal a", "", .unset, "plain body", "open", []⟩

/-- First of two issues that name each other as parents (C7's counterexample
input, second scenario). -/
def mutualA : Issue :=
  ⟨1, "goal a", "https://github.com/own/repo/issues/1", .unset, "part of #2", "open", []⟩

/-- Second of the two mutually referencing issues. -/
def mutualB : Issue :=
  ⟨2, "goal b", "https://github.com/own/repo/issues/2", .unset, "part of #1", "open", []⟩

/-- The retry scenario of the spec: two transient failures, then success. -/
def connResetTwice : RetryOp :=
  fun i => if i < 2 then some "connection reset" else none

/-! Theorems. -/

/-- If the scan of `GetKRStatus` finds nothing, the newest update (when one
exists) carries the unknown status. -/
theorem firstMeaningful_none_head (u : WeeklyUpdate) (t : List WeeklyUpdate)
    (h : firstMeaningfulStatus (u :: t) = none) :
    u.status = WeeklyUpdateStatus.unknown := by
  by_cases hu : u.status = WeeklyUpdateStatus.unknown
  · exact hu
  · simp [firstMeaningfulStatus, hu] at h

/-- C1: the claim (and the code's own "majority of KRs are completed
(>= 50%)" comment) demand the ceiling threshold, but `GetObjectiveStatus`
divides with Go integer (floor) division: an objective with a single child of
unknown status satisfies `0 >= 1/2` and comes out on-track, where the claimed
resolution yields unknown. -/
theorem C1_floor_majority_divergence :
    objOneUnknownChild.getObjectiveStatus = WeeklyUpdateStatus.onTrack ∧
      claimObjectiveResolve
          (objOneUnknownChild.childIssues.map (fun kr => kr.getKRStatus)) =
        WeeklyUpdateStatus.unknown ∧
      objOneUnknownChild.childIssues.length = 1 := by
  decide

/-- C2 counterexample: the claim quantifies over every issue, but for an
issue that is not a key result `GetKRStatus` falls back to `GetActualStatus`,
which consults only the newest update. With a newest update of unknown status
above an older blocked one, the code answers unknown while the claimed scan
answers blocked (the input satisfies the latest-is-head invariant). -/
theorem C2_counterexample :
    objStaleBlocked.getKRStatus = WeeklyUpdateStatus.unknown ∧
      claimKRStatus objStaleBlocked = WeeklyUpdateStatus.blocked ∧
      objStaleBlocked.latestUpdate = objStaleBlocked.allUpdates.head? := by
  decide

/-- C2 amended: with the latest-is-head invariant that both construction
sites establish, `GetKRStatus` behaves as claimed on key results, while any
other issue consults only its newest update (older entries are never
scanned). -/
theorem C2_amended_scan_rule (i : IssueWithUpdates)
    (h : i.latestUpdate = i.allUpdates.head?) :
    i.getKRStatus = amendedKRStatus i := by
  obtain ⟨iss, latest, all, kids⟩ := i
  simp only [IssueWithUpdates.latestUpdate, IssueWithUpdates.allUpdates] at h
  subst h
  by_cases hkr : iss.isKeyResult = true
  · by_cases hcl : iss.state = "closed"
    · simp [IssueWithUpdates.getKRStatus, amendedKRStatus, IssueWithUpdates.issue, hkr, hcl]
    · simp only [IssueWithUpdates.getKRStatus, amendedKRStatus, IssueWithUpdates.issue,
        IssueWithUpdates.allUpdates, IssueWithUpdates.latestUpdate, hkr, hcl,
        Bool.not_true, Bool.false_eq_true, if_false, ite_true, if_true]
      cases hfm : firstMeaningfulStatus all with
      | some st => simp [hfm]
      | none =>
        simp only [hfm]
        cases all with
        | nil => simp [IssueWithUpdates.getLatestUpdateStatus, IssueWithUpdates.latestUpdate]
        | cons u t =>
          have hu := firstMeaningful_none_head u t hfm
          simp [IssueWithUpdates.getLatestUpdateStatus, IssueWithUpdates.latestUpdate, hu]
  · have hkr' : iss.isKeyResult = false := by
      revert hkr
      cases iss.isKeyResult <;> simp
    by_cases hcl : iss.state = "closed"
    · simp [IssueWithUpdates.getKRStatus, IssueWithUpdates.getActualStatus, amendedKRStatus,
        IssueWithUpdates.issue, hkr', hcl]
    · cases all with
      | nil =>
        simp [IssueWithUpdates.getKRStatus, IssueWithUpdates.getActualStatus, amendedKRStatus,
          IssueWithUpdates.issue, IssueWithUpdates.latestUpdate, IssueWithUpdates.allUpdates,
          IssueWithUpdates.getLatestUpdateStatus, hkr', hcl, firstMeaningfulStatus]
      | cons u t =>
        by_cases hu : u.status = WeeklyUpdateStatus.unknown
        · simp [IssueWithUpdates.getKRStatus, IssueWithUpdates.getActualStatus, amendedKRStatus,
            IssueWithUpdates.issue, IssueWithUpdates.latestUpdate, IssueWithUpdates.allUpdates,
            IssueWithUpdates.getLatestUpdateStatus, hkr', hcl, hu, firstMeaningfulStatus]
        · simp [IssueWithUpdates.getKRStatus, IssueWithUpdates.getActualStatus, amendedKRStatus,
            IssueWithUpdates.issue, IssueWithUpdates.latestUpdate, IssueWithUpdates.allUpdates,
            IssueWithUpdates.getLatestUpdateStatus, hkr', hcl, hu, firstMeaningfulStatus]

/-- C2 amended witness: a key result whose newest update is unrecognized
while an older one is blocked. -/
theorem C2_amended_witness :
    krScan.latestUpdate = krScan.allUpdates.head? ∧
      krScan.getKRStatus = amendedKRStatus krScan :=
  ⟨rfl, C2_amended_scan_rule krScan rfl⟩

/-- C3: on a childless objective, `GetObjectiveStatus` and `GetKRStatus` both
reduce to `GetActualStatus`, hence agree for every state and update
history. -/
theorem C3_childless_objective_agrees (i : IssueWithUpdates)
    (h1 : i.issue.type = IssueType.objective) (h2 : i.childIssues = []) :
    i.getObjectiveStatus = i.getKRStatus := by
  have hobj : i.issue.isKeyResult = false := by
    simp [Issue.isKeyResult, h1]
  simp [IssueWithUpdates.getObjectiveStatus, IssueWithUpdates.getKRStatus, h2, hobj]

/-- C3 witness: a concrete childless objective. -/
theorem C3_childless_witness :
    objChildless.getObjectiveStatus = objChildless.getKRStatus :=
  C3_childless_objective_agrees objChildless rfl rfl

/-- C4 counterexample: the completion branch of the adapter's
`detectStatusFromContent` checks only the three keywords, and the on-track
branch checks the corrupted literal, not the real check-mark glyph U+2705; a
comment consisting of that glyph therefore classifies as unknown, not
completed. -/
theorem C4_counterexample :
    goContains checkGlyph checkGlyph = true ∧
      adapterDetectStatusFromContent checkGlyph = WeeklyUpdateStatus.unknown := by
  decide

/-- C4 amended: `detectStatusFromContent` returns completed exactly when the
lowered content contains one of the keywords completed, done or finished; the
check-mark glyph plays no part in the completion rule. -/
theorem C4_amended_completed_iff (content : String) :
    adapterDetectStatusFromContent content = WeeklyUpdateStatus.completed ↔
      adCompletedCond content = true := by
  by_cases hc : adCompletedCond content = true
  · simp [adapterDetectStatusFromContent, hc]
  · have hc' : adCompletedCond content = false := by
      revert hc
      cases adCompletedCond content <;> simp
    rw [hc']
    simp only [adapterDetectStatusFromContent, hc', Bool.false_eq_true, if_false]
    constructor
    · intro h
      exfalso
      revert h
      repeat' split
      all_goals decide
    · intro h
      cases h

/-- One step of the parent-map fold only appends to the entry of the
resolved parent. -/
theorem bpcrStep_pointwise (env : GitHubEnv) (m : Nat → List Issue) (i : Issue) (k : Nat) :
    bpcrStep env m i k = m k ++ bpcrStep env (fun _ => []) i k := by
  unfold bpcrStep
  by_cases hp : 0 < resolvedParentNum env i
  · simp only [if_pos hp]
    by_cases hk : k = resolvedParentNum env i <;> simp [hk]
  · simp [if_neg hp]

/-- The parent-map fold decomposes over its accumulator, pointwise. -/
theorem bpcr_fold_append (env : GitHubEnv) :
    ∀ (issues : List Issue) (m : Nat → List Issue) (k : Nat),
      (issues.foldl (bpcrStep env) m) k =
        m k ++ (issues.foldl (bpcrStep env) (fun _ => [])) k := by
  intro issues
  induction issues with
  | nil => intro m k; simp
  | cons i is ih =>
    intro m k
    simp only [List.foldl]
    rw [ih (bpcrStep env m i) k, ih (bpcrStep env (fun _ => []) i) k,
      bpcrStep_pointwise env m i k, List.append_assoc]

/-- C6 counterexample: an issue whose body names its own number as parent is
not ignored: the extractor returns its own number, the issue lands in
`parentToChildren` as its own child, and classification marks it a key
result. -/
theorem C6_counterexample :
    extractParentIssueNumber selfRefIssue = 5 ∧
      buildParentChildRelationships envNull [selfRefIssue] 5 = [selfRefIssue] ∧
      storeGet
          (identifyObjectivesAndKeyResults [selfRefIssue]
            (buildParentChildRelationships envNull [selfRefIssue])).2 selfRefIssue =
        IssueType.keyResult := by
  decide

/-- C6 amended: a parent reference naming the issue's own (positive) number
is treated like any other reference, so the issue is recorded in
`parentToChildren` as a child of itself. -/
theorem C6_amended_self_reference (env : GitHubEnv) (issues : List Issue) (i : Issue)
    (hmem : i ∈ issues) (hself : extractParentIssueNumber i = i.number)
    (hpos : 0 < i.number) :
    i ∈ buildParentChildRelationships env issues i.number := by
  have hres : resolvedParentNum env i = i.number := by
    unfold resolvedParentNum
    rw [hself, if_neg (by omega)]
  revert hmem
  induction issues with
  | nil => intro hmem; cases hmem
  | cons j js ih =>
    intro hmem
    unfold buildParentChildRelationships
    simp only [List.foldl]
    rw [bpcr_fold_append env js (bpcrStep env (fun _ => []) j) i.number]
    rcases List.mem_cons.mp hmem with hij | hmem'
    · subst hij
      apply List.mem_append_left
      simp [bpcrStep, hres, hpos]
    · exact List.mem_append_right _ (ih hmem')

/-- C6 amended witness: the self-referencing issue number 5. -/
theorem C6_amended_witness :
    selfRefIssue ∈ buildParentChildRelationships envNull [selfRefIssue] selfRefIssue.number :=
  C6_amended_self_reference envNull [selfRefIssue] selfRefIssue (by simp) (by decide) (by decide)

/-- The objective-processing loop keeps exactly the parents whose URL yields
an owner and repo, in order, regardless of the type store and environment. -/
theorem processParentsLoop_numbers (env : GitHubEnv) (pcm : Nat → List Issue) :
    ∀ (parents : List Issue) (acc : List IssueWithUpdates) (st : TypeStore),
      ((processParentsLoop env pcm parents (acc, st)).1).map (fun o => o.issue.number) =
        acc.map (fun o => o.issue.number) ++
          (parents.filter (fun i => (extractOwnerRepoFromIssue i).isSome)).map
            (fun i => i.number) := by
  intro parents
  induction parents with
  | nil => intro acc st; simp [processParentsLoop]
  | cons p ps ih =>
    intro acc st
    cases hor : extractOwnerRepoFromIssue p with
    | none =>
      simp only [processParentsLoop, processObjectiveWithChildren, hor]
      rw [ih]
      simp [List.filter, hor]
    | some pr =>
      obtain ⟨ow, rp⟩ := pr
      simp only [processParentsLoop, processObjectiveWithChildren, hor]
      rw [ih]
      simp [List.filter, hor, applyStore, IssueWithUpdates.issue]

/-- C7 counterexample. First scenario: classification yields zero objectives
for a single filtered issue whose URL the owner/repo regex cannot parse, and
the produced objectives list is empty, not non-empty. Second scenario: two
issues naming each other as parents also classify to zero objectives, and
under the fallback each produced objective carries one child, not none. -/
theorem C7_counterexample :
    ((identifyObjectivesAndKeyResults [badURLIssue]
          (buildParentChildRelationships envNull [badURLIssue])).1 = [] ∧
        filterIssuesByLabels [badURLIssue] [] = [badURLIssue] ∧
        (processOKRIssues envNull [badURLIssue] []).length = 0) ∧
      ((identifyObjectivesAndKeyResults [mutualA, mutualB]
            (buildParentChildRelationships envNull [mutualA, mutualB])).1 = [] ∧
        (processOKRIssues envNull [mutualA, mutualB] []).map
            (fun o => o.childIssues.length) = [1, 1]) := by
  decide

/-- C7 amended: when classification yields zero objectives, the fallback
processes every filtered issue as an objective — keeping whatever children
`parentToChildren` records under its number — and the output contains exactly
one objective per filtered issue whose URL yields an owner and repo (so the
output is non-empty iff such an issue survived filtering). -/
theorem C7_amended_fallback (env : GitHubEnv) (issues : List Issue) (labels : List String)
    (h : (identifyObjectivesAndKeyResults (filterIssuesByLabels issues labels)
        (buildParentChildRelationships env (filterIssuesByLabels issues labels))).1 = []) :
    (processOKRIssues env issues labels).map (fun o => o.issue.number) =
      ((filterIssuesByLabels issues labels).filter
          (fun i => (extractOwnerRepoFromIssue i).isSome)).map (fun i => i.number) := by
  unfold processOKRIssues
  by_cases hemp : (filterIssuesByLabels issues labels).isEmpty = true
  · have hnil : filterIssuesByLabels issues labels = [] := by
      simpa using hemp
    simp [hnil]
  · simp only [hemp, Bool.false_eq_true, if_false]
    have hid : (identifyObjectivesAndKeyResults (filterIssuesByLabels issues labels)
        (buildParentChildRelationships env (filterIssuesByLabels issues labels))).1.isEmpty =
        true := by
      rw [h]
      rfl
    simp only [hid, if_true, ite_true]
    rw [processParentsLoop_numbers]
    simp

/-- C7 amended witness: the unparsable-URL issue passes filtering, fails
owner/repo extraction, and yields an empty objectives list. -/
theorem C7_amended_witness :
    (processOKRIssues envNull [badURLIssue] []).map (fun o => o.issue.number) =
      ((filterIssuesByLabels [badURLIssue] []).filter
          (fun i => (extractOwnerRepoFromIssue i).isSome)).map (fun i => i.number) :=
  C7_amended_fallback envNull [badURLIssue] [] (by decide)

/-- C4 amended witness: the keyword done classifies as completed. -/
theorem C4_amended_witness :
    adapterDetectStatusFromContent "work is done" = WeeklyUpdateStatus.completed ↔
      adCompletedCond "work is done" = true :=
  C4_amended_completed_iff "work is done"

/-- C8 counterexample: with a page size of 2 and a configured maximum of 2,
two available pages yield three issues, because the bound is checked only
strictly after a page is appended; the returned list exceeds the configured
maximum. -/
theorem C8_counterexample :
    fetchIssuesBySearchQuery 2 "is:issue" [[1, 2], [3]] = Except.ok [1, 2, 3] ∧
      2 < ([1, 2, 3] : List Nat).length := by
  exact ⟨rfl, by decide⟩

/-- The pagination loop never carries the accumulated list more than one
page past the cap: entering another iteration requires the count to still be
within the cap. -/
theorem searchPagesLoop_length_le (maxIssues : Nat) :
    ∀ (pages : List (List Nat)) (acc : List Nat), acc.length ≤ maxIssues →
      (searchPagesLoop maxIssues pages acc).length ≤ maxIssues + biggestPage pages := by
  intro pages
  induction pages with
  | nil =>
    intro acc h
    simp only [searchPagesLoop, biggestPage, List.foldr]
    omega
  | cons p rest ih =>
    intro acc h
    cases rest with
    | nil =>
      have hb : p.length ≤ biggestPage [p] := Nat.le_max_left _ _
      simp only [searchPagesLoop, List.length_append]
      omega
    | cons q rest2 =>
      have hb1 : p.length ≤ biggestPage (p :: q :: rest2) := Nat.le_max_left _ _
      have hb2 : biggestPage (q :: rest2) ≤ biggestPage (p :: q :: rest2) :=
        Nat.le_max_right _ _
      simp only [searchPagesLoop]
      split
      · next hgt =>
        simp only [List.length_append]
        omega
      · next hle =>
        have h2 : (acc ++ p).length ≤ maxIssues := by
          simp only [List.length_append] at hle ⊢
          omega
        have h3 := ih (acc ++ p) h2
        omega

/-- C8 amended: pagination continues until no pages remain or the count
strictly exceeds the configured maximum, so the returned list can overshoot
the maximum, but never by more than the size of one page. -/
theorem C8_amended_cap_overshoot_bound (maxIssues : Nat) (pages : List (List Nat)) :
    (searchPagesLoop maxIssues pages []).length ≤ maxIssues + biggestPage pages :=
  searchPagesLoop_length_le maxIssues pages [] (by simp)

/-- C8 amended witness: the counterexample input stays within one page of the
cap. -/
theorem C8_amended_witness :
    (searchPagesLoop 2 [[1, 2], [3]] []).length ≤ 2 + biggestPage [[1, 2], [3]] :=
  C8_amended_cap_overshoot_bound 2 [[1, 2], [3]]

/-- If the first k attempts fail transiently and attempt k succeeds, the loop
entered at attempt j with the counter value j - 1 succeeds with counter k. -/
theorem retryLoop_ok_of_transient (maxRetries : Nat) (op : RetryOp) (k : Nat)
    (hk : k < maxRetries)
    (hfail : ∀ i, i < k → ∃ e, op i = some e ∧ isRetryableError e = true)
    (hsucc : op k = none) :
    ∀ n j, k - j = n → j ≤ k →
      retryLoop maxRetries op j (j - 1) = (Except.ok (), k) := by
  intro n
  induction n with
  | zero =>
    intro j hn hj
    have hjk : j = k := by omega
    subst hjk
    rw [retryLoop, dif_pos hk]
    have hre : (if 0 < j then j - 1 + 1 else j - 1) = j := by
      by_cases h0 : 0 < j <;> simp [h0] <;> omega
    simp [hsucc, hre]
  | succ n ihn =>
    intro j hn hj
    have hjk : j < k := by omega
    obtain ⟨e, he, hre⟩ := hfail j hjk
    rw [retryLoop, dif_pos (by omega : j < maxRetries)]
    have hcond : ¬(j = maxRetries - 1 ∨ ¬isRetryableError e = true) := by
      refine not_or.mpr ⟨by omega, by simp [hre]⟩
    have hstep : (if 0 < j then j - 1 + 1 else j - 1) = j + 1 - 1 := by
      by_cases h0 : 0 < j <;> simp [h0] <;> omega
    simp only [he, hstep, if_neg hcond]
    exact ihn (j + 1) (by omega) (by omega)

/-- The retry counter of a loop entered at attempt j with running count r can
rise at most once per remaining attempt. -/
theorem retryLoop_count_le (maxRetries : Nat) (op : RetryOp) :
    ∀ n j r, maxRetries - j = n → 1 ≤ j →
      (retryLoop maxRetries op j r).2 ≤ r + (maxRetries - j) := by
  intro n
  induction n with
  | zero =>
    intro j r hn hj
    rw [retryLoop, dif_neg (by omega)]
    exact Nat.le_add_right r (maxRetries - j)
  | succ n ihn =>
    intro j r hn hj
    rw [retryLoop, dif_pos (by omega : j < maxRetries)]
    have hre : (if 0 < j then r + 1 else r) = r + 1 := if_pos (by omega)
    cases hop : op j with
    | none =>
      simp [hop, hre]
      omega
    | some e =>
      simp only [hop, hre]
      split
      · simp
        omega
      · have := ihn (j + 1) (r + 1) (by omega) (by omega)
        omega

/-- C9: `retryWithBackoff` fails at once, with zero retry increments, when
the first attempt raises a non-retryable error; it succeeds with exactly k
retry increments when the first k attempts fail transiently and attempt k
succeeds within the configured budget; and the retry counter never reaches
the configured maximum number of attempts. -/
theorem C9_retry_policy (maxRetries : Nat) (op : RetryOp) (hpos : 0 < maxRetries) :
    (∀ err, op 0 = some err → isRetryableError err = false →
        retryWithBackoff maxRetries op = (Except.error err, 0)) ∧
      (∀ k, k < maxRetries →
        (∀ i, i < k → ∃ e, op i = some e ∧ isRetryableError e = true) →
        op k = none → retryWithBackoff maxRetries op = (Except.ok (), k)) ∧
      (retryWithBackoff maxRetries op).2 + 1 ≤ maxRetries := by
  refine ⟨?_, ?_, ?_⟩
  · intro err h0 hnr
    unfold retryWithBackoff
    rw [retryLoop, dif_pos hpos]
    simp [h0, hnr]
  · intro k hk hfail hsucc
    have h := retryLoop_ok_of_transient maxRetries op k hk hfail hsucc k 0 (by omega) (by omega)
    simpa [retryWithBackoff] using h
  · unfold retryWithBackoff
    rw [retryLoop, dif_pos hpos]
    cases hop : op 0 with
    | none =>
      show 0 + 1 ≤ maxRetries
      omega
    | some e =>
      by_cases hcond : 0 = maxRetries - 1 ∨ ¬isRetryableError e = true
      · show (if 0 = maxRetries - 1 ∨ ¬isRetryableError e = true then (Except.error e, 0)
            else retryLoop maxRetries op 1 0).2 + 1 ≤ maxRetries
        rw [if_pos hcond]
        show 0 + 1 ≤ maxRetries
        omega
      · show (if 0 = maxRetries - 1 ∨ ¬isRetryableError e = true then (Except.error e, 0)
            else retryLoop maxRetries op 1 0).2 + 1 ≤ maxRetries
        rw [if_neg hcond]
        have h5 := retryLoop_count_le maxRetries op (maxRetries - 1) 1 0 (by omega) (by omega)
        omega

/-- C9 witness: the spec's retry scenario, two connection resets then
success, completing with the retry counter at exactly 2. -/
theorem C9_retry_witness :
    (0 : Nat) < 3 ∧ isRetryableError "connection reset" = true ∧
      retryWithBackoff 3 connResetTwice = (Except.ok (), 2) := by
  refine ⟨by decide, by decide, ?_⟩
  exact (C9_retry_policy 3 connResetTwice (by decide)).2.1 2 (by decide)
    (fun i hi => ⟨"connection reset", by simp [connResetTwice, hi], by decide⟩) (by rfl)

/-- C10: the service-side `DetectStatusFromContent` never answers unknown;
when none of its four indicator groups match the content it falls through to
the on-track default. -/
theorem C10_service_default_on_track (content : String) :
    serviceDetectStatusFromContent content ≠ WeeklyUpdateStatus.unknown ∧
      (svcCompletedCond content = false → svcBlockedCond content = false →
        svcAtRiskCond content = false → svcOnTrackCond content = false →
        serviceDetectStatusFromContent content = WeeklyUpdateStatus.onTrack) := by
  constructor
  · unfold serviceDetectStatusFromContent
    repeat' split
    all_goals decide
  · intro h1 h2 h3 h4
    simp [serviceDetectStatusFromContent, h1, h2, h3, h4]

/-- C10 witness: a comment with no indicator at all is classified
on-track. -/
theorem C10_service_witness :
    serviceDetectStatusFromContent "nothing to report" ≠ WeeklyUpdateStatus.unknown ∧
      serviceDetectStatusFromContent "nothing to report" = WeeklyUpdateStatus.onTrack := by
  have h := C10_service_default_on_track "nothing to report"
  exact ⟨h.1, h.2 (by decide) (by decide) (by decide) (by decide)⟩

end OKRFetcher
